import Mathlib

/-!
Shallow embedding of the rag_ops asynchronous RAG pipeline.

Source files embedded:
  - src/rag_ops/app.py            (AsyncRAGApp, main)
  - src/rag_ops/models/file_processor.py (AsyncFileProcessor)
  - src/rag_ops/models/vectorstore.py    (AsyncVectorStore)
  - src/rag_ops/models/retriever.py      (AsyncDocumentRetriever)
  - src/rag_ops/config/config.py         (Config)
  - src/rag_ops/api/utils.py             (validate_file_size, MAX_FILE_SIZES)

Modelling conventions:
  - Text and byte buffers are `List Char` (characters as the generic unit of
    the spec); metadata mappings are association lists `List (String × String)`.
  - `run_in_executor` offloads a computation to a worker pool and awaits its
    value; its observable behaviour is the function's value, so it is modelled
    as direct application.
  - `asyncio.gather` returns the result of each awaitable in the order of the
    original argument sequence (its documented contract), so it is modelled as
    the identity on the list of per-task results.
  - External decoders (PyMuPDF, pandas) are abstract parameters
    (`Decoders`): each maps the raw byte content handed over via the
    temporary file to the extracted text.
-/

/-- langchain `Document`: page content plus string-to-string metadata. -/
structure Document where
  page_content : List Char
  metadata : List (String × String)
deriving Repr, DecidableEq

/-- A Streamlit `UploadedFile`: name, declared MIME type, byte content
(`getbuffer`). -/
structure UploadedFile where
  name : String
  type : String
  buffer : List Char
deriving Repr, DecidableEq

/-- config/config.py: `CHUNK_SIZE = int(os.getenv("CHUNK_SIZE", 1500))`;
the environment is not set, so the default applies. -/
def Config.CHUNK_SIZE : Nat := 1500

/-- config/config.py: `CHUNK_OVERLAP = int(os.getenv("CHUNK_OVERLAP", 200))`. -/
def Config.CHUNK_OVERLAP : Nat := 200

/-- The format-specific external decoders (fitz for PDF, pandas for CSV and
Excel), abstracted as functions from raw byte content to extracted text. -/
structure Decoders where
  readPdf : List Char → List Char
  readCsv : List Char → List Char
  readExcel : List Char → List Char

/-- Models `run_in_executor`: the worker-pool offload whose awaited value is
the function applied to the argument. -/
def run_in_executor {α β : Type} (f : α → β) (x : α) : β := f x

/-- file_processor.py `AsyncFileProcessor.aprocess_file`, value level:
dispatch on the declared content type; a supported type yields
`Document(page_content=text, metadata={"file_name": uploaded_file.name})`,
an unsupported type yields `None`. -/
def AsyncFileProcessor.aprocess_file (d : Decoders) (f : UploadedFile) :
    Option Document :=
  if f.type = "application/pdf" then
    some ⟨run_in_executor d.readPdf f.buffer, [("file_name", f.name)]⟩
  else if f.type = "text/csv" then
    some ⟨run_in_executor d.readCsv f.buffer, [("file_name", f.name)]⟩
  else if f.type = "application/vnd.openxmlformats-officedocument.spreadsheetml.sheet" then
    some ⟨run_in_executor d.readExcel f.buffer, [("file_name", f.name)]⟩
  else
    none

/-- Models `asyncio.gather`: results are returned in the order of the
original awaitable sequence. -/
def gather {α : Type} (results : List α) : List α := results

/-- app.py `AsyncRAGApp.aprocess_files`: one parse task per uploaded file,
`await asyncio.gather(*tasks)`, then `[doc for doc in documents if doc is
not None]`. -/
def aprocess_files (d : Decoders) (files : List UploadedFile) :
    List Document :=
  let tasks := files.map (AsyncFileProcessor.aprocess_file d)
  let documents := gather tasks
  documents.filterMap id

/-- Modelled from the spec: the Chunker (realised in the source by the
third-party `RecursiveCharacterTextSplitter`, whose code is not part of this
repository) splits text into segments of at most `chunk_size` units, each
sharing an overlap of `chunk_overlap` units with the previous segment; a
text of at most `chunk_size` units is a single chunk equal to the text.
The fuel argument bounds the recursion; `splitText` supplies enough fuel. -/
def splitTextAux (chunk_size chunk_overlap : Nat) :
    Nat → List Char → List (List Char)
  | 0, s => [s]
  | fuel + 1, s =>
    if s.length ≤ chunk_size then [s]
    else s.take chunk_size ::
      splitTextAux chunk_size chunk_overlap fuel
        (s.drop (chunk_size - chunk_overlap))

/-- Modelled from the spec: splitting one text, see `splitTextAux`. -/
def splitText (chunk_size chunk_overlap : Nat) (s : List Char) :
    List (List Char) :=
  splitTextAux chunk_size chunk_overlap s.length s

/-- Modelled from the spec: `split(sequence of Document) → sequence of
Chunk`, each chunk inheriting the parent Document's metadata (the behaviour
of the library `split_documents` as the spec describes it). -/
def split_documents (chunk_size chunk_overlap : Nat)
    (docs : List Document) : List Document :=
  (docs.map (fun d =>
    (splitText chunk_size chunk_overlap d.page_content).map
      (fun t => Document.mk t d.metadata))).flatten

/-- vectorstore.py `AsyncVectorStore.aprocess_documents`: offloads
`text_splitter.split_documents` (configured with `Config.CHUNK_SIZE` and
`Config.CHUNK_OVERLAP`) to the executor. -/
def AsyncVectorStore.aprocess_documents (docs : List Document) :
    List Document :=
  run_in_executor (split_documents Config.CHUNK_SIZE Config.CHUNK_OVERLAP) docs

/-- Modelled from the spec: a Chroma index handle answers a query with its
full descending-similarity ranking of the stored chunks; the ranking
semantics are the store's own. -/
def Chroma : Type := String → List Document

/-- Modelled from the spec: the Index similarity search returns the top `k`
of the store's descending-similarity ranking, hence at most `k` results. -/
def Chroma.similarity_search (db : Chroma) (query : String) (k : Nat) :
    List Document :=
  (db query).take k

/-- retriever.py `AsyncDocumentRetriever`: wraps a Chroma handle. -/
structure AsyncDocumentRetriever where
  vector_db : Chroma

/-- retriever.py `AsyncDocumentRetriever.aretrieve`: offloads
`self.vector_db.similarity_search(query, top_k)` to the executor. -/
def AsyncDocumentRetriever.aretrieve (r : AsyncDocumentRetriever)
    (query : String) (top_k : Nat) : List Document :=
  run_in_executor (fun k => r.vector_db.similarity_search query k) top_k

/-- retriever.py declares `top_k: int = 5`: a call that omits `top_k` uses
the value 5. -/
def aretrieve_omitting_top_k (r : AsyncDocumentRetriever) (query : String) :
    List Document :=
  r.aretrieve query 5

/-- app.py `agenerate_response` retrieves with `top_k=3` explicitly. -/
def agenerate_docs (r : AsyncDocumentRetriever) (query : String) :
    List Document :=
  r.aretrieve query 3

/-- Python `history[-3:]`: the suffix of the last `n` elements (all of them
when the list is shorter than `n`). -/
def pySliceLast {α : Type} (n : Nat) (l : List α) : List α :=
  l.drop (l.length - n)

/-- app.py: the f-string `f"Q: {q}\nA: {a}"` applied to one history pair. -/
def formatQA (p : String × String) : String :=
  "Q: " ++ p.1 ++ "\n" ++ "A: " ++ p.2

/-- app.py `agenerate_response`: `history_str = "\n".join([f"Q: {q}\nA: {a}"
for q, a in chat_history[-3:]])`. -/
def history_str (chat_history : List (String × String)) : String :=
  String.intercalate "\n" ((pySliceLast 3 chat_history).map formatQA)

/-- The rendered placeholder values `\x7bcontext, chat_history, question\x7d`
handed to the prompt template in `agenerate_response`. -/
structure PromptInput where
  context : String
  chat_history : String
  question : String

/-- app.py `agenerate_response` up to the language-model call: retrieve with
`top_k=3`, join the retrieved page contents with newlines as the context,
format the chat history, and fill the template placeholders. -/
def agenerate_prompt (r : AsyncDocumentRetriever) (query : String)
    (chat_history : List (String × String)) : PromptInput :=
  ⟨String.intercalate "\n"
      ((agenerate_docs r query).map (fun d => String.mk d.page_content)),
    history_str chat_history,
    query⟩

/-- Session state of app.py `main` (per Streamlit session): the display
message list (role, content), the conversation history of (question,
answer) pairs, and the active retriever handle (`None` while no documents
are ingested, i.e. the spec's `Empty` state). -/
structure AppState where
  messages : List (String × String)
  chat_history : List (String × String)
  retriever : Option AsyncDocumentRetriever

/-- vectorstore.py `Chroma.from_documents` embeds every chunk and builds the
persisted index; the store's ranking is abstract (`mkIndex`), and the number
of embedding calls made is the number of chunks handed over. -/
def Chroma.from_documents (mkIndex : List Document → Chroma)
    (doc_chunks : List Document) : Chroma × Nat :=
  (mkIndex doc_chunks, doc_chunks.length)

/-- vectorstore.py `asetup_vectorstore` followed by app.py
`asetup_retriever`: split the documents into chunks, build the Chroma index
from them (counting embedding calls), wrap it in a retriever. -/
def asetup_retriever (mkIndex : List Document → Chroma)
    (documents : List Document) : AsyncDocumentRetriever × Nat :=
  let doc_chunks := AsyncVectorStore.aprocess_documents documents
  let built := Chroma.from_documents mkIndex doc_chunks
  (⟨built.1⟩, built.2)

/-- app.py `main`, ingestion section: when no retriever is installed yet,
process the uploaded files; if no valid documents result, report "No valid
documents were processed." and leave the state untouched; otherwise build
the index and install the retriever. Returns the new state, the surfaced
error message if any, and the number of embedding calls made. -/
def ingest_step (d : Decoders) (mkIndex : List Document → Chroma)
    (files : List UploadedFile) (st : AppState) :
    AppState × Option String × Nat :=
  match st.retriever with
  | some _ => (st, none, 0)
  | none =>
    let documents := aprocess_files d files
    if documents.isEmpty then
      (st, some "No valid documents were processed.", 0)
    else
      let built := asetup_retriever mkIndex documents
      ({ st with retriever := some built.1 }, none, built.2)

/-- app.py `main`, chat section for one submitted prompt: the user message
is appended to the display list, then `agenerate_response` runs inside a
`try`; on success the assistant message and the (question, answer) pair are
appended, on an exception the handler surfaces
`f"Error generating response: {str(e)}"` and nothing else changes. The
generation outcome (any exception from retrieval or the language model) is
the `gen` argument. Returns the new state and the surfaced error if any. -/
def chat_step (gen : Except String String) (prompt : String)
    (st : AppState) : AppState × Option String :=
  let st1 : AppState :=
    { st with messages := st.messages ++ [("user", prompt)] }
  match gen with
  | Except.ok response =>
    ({ st1 with
        messages := st1.messages ++ [("assistant", response)],
        chat_history := st1.chat_history ++ [(prompt, response)] }, none)
  | Except.error e => (st1, some ("Error generating response: " ++ e))

/-- Outcome of one `await` of the initial temp-file write in
`aprocess_file`: it completes, or the task is cancelled while suspended
there. -/
inductive AwaitOutcome
  | ok
  | cancelled
deriving Repr, DecidableEq

/-- Outcome of the awaited format-specific decode inside the `try` block:
it returns text, raises a decode error, or the task is cancelled while
suspended there. -/
inductive DecodeOutcome
  | ok
  | raised
  | cancelled
deriving Repr, DecidableEq

/-- How one call of `aprocess_file` exits: a returned value (`Some
Document` or `None`), or a propagated exception/cancellation. -/
inductive ExecResult
  | returned : Option Document → ExecResult
  | interrupted : ExecResult
deriving Repr, DecidableEq

/-- Observable outcome of one `aprocess_file` call: how it exited and
whether the temporary scratch file still exists afterwards. -/
structure ExecOutcome where
  result : ExecResult
  temp_file_exists : Bool
deriving Repr, DecidableEq

/-- file_processor.py `aprocess_file`, control-flow level. The code first
creates `/tmp/<name>` and awaits writing the upload into it
(`async with aiofiles.open(...): await f.write(...)`); only then does it
enter `try: ... finally: os.remove(temp_file_path)`. So the `finally`
cleanup covers every exit from the `try` block (successful decode,
unsupported type's `return None`, decode exception, cancellation during the
decode await) but not an exit during the initial write await, which leaves
the temporary file on disk. -/
def aprocess_file_exec (d : Decoders) (write : AwaitOutcome)
    (decode : DecodeOutcome) (f : UploadedFile) : ExecOutcome :=
  match write with
  | AwaitOutcome.cancelled => ⟨ExecResult.interrupted, true⟩
  | AwaitOutcome.ok =>
    if f.type = "application/pdf" ∨ f.type = "text/csv" ∨
        f.type = "application/vnd.openxmlformats-officedocument.spreadsheetml.sheet" then
      match decode with
      | DecodeOutcome.ok =>
        ⟨ExecResult.returned (AsyncFileProcessor.aprocess_file d f), false⟩
      | DecodeOutcome.raised => ⟨ExecResult.interrupted, false⟩
      | DecodeOutcome.cancelled => ⟨ExecResult.interrupted, false⟩
    else
      ⟨ExecResult.returned none, false⟩

/-- api/utils.py `MAX_FILE_SIZES`: maximum file sizes in bytes. -/
def MAX_FILE_SIZES : List (String × Nat) :=
  [("pdf", 20 * 1024 * 1024),
   ("csv", 10 * 1024 * 1024),
   ("xlsx", 15 * 1024 * 1024)]

/-- api/utils.py `validate_file_size`: looks the file type up in
`MAX_FILE_SIZES`; `if max_size and file_size > max_size:` raises an
HTTP 400 (the Python truthiness test skips both a missing entry and a zero
entry). The detail string is abridged; no claim depends on its text. -/
def validate_file_size (file_size : Nat) (file_type : String) :
    Except String Unit :=
  match MAX_FILE_SIZES.lookup file_type with
  | none => Except.ok ()
  | some max_size =>
    if max_size ≠ 0 ∧ file_size > max_size then
      Except.error ("File size exceeds maximum allowed size for " ++
        file_type ++ " files")
    else
      Except.ok ()

/-! ## Helper lemmas and concrete sample values -/

/-- Removing the `none` entries and rewrapping yields a sublist of the
original option list: order is preserved and nothing new appears. -/
theorem filterMap_id_map_some_sublist {α : Type} :
    ∀ l : List (Option α), List.Sublist ((l.filterMap id).map some) l := by
  intro l
  induction l with
  | nil => simp
  | cons a t ih =>
    cases a with
    | none => simpa using ih.cons none
    | some x => simpa using ih.cons₂ (some x)

/-- A file whose declared content type is none of the three supported MIME
types parses to `None`. -/
theorem aprocess_file_eq_none_of_unsupported (d : Decoders)
    (f : UploadedFile)
    (h1 : f.type ≠ "application/pdf")
    (h2 : f.type ≠ "text/csv")
    (h3 : f.type ≠ "application/vnd.openxmlformats-officedocument.spreadsheetml.sheet") :
    AsyncFileProcessor.aprocess_file d f = none := by
  simp [AsyncFileProcessor.aprocess_file, h1, h2, h3]

/-- Identity decoders: a concrete `Decoders` instance for evaluation. -/
def sampleDecoders : Decoders := ⟨id, id, id⟩

/-- A concrete index builder for evaluation: every query ranks nothing. -/
def sampleIndex : List Document → Chroma := fun _ => fun _ => []

/-- A concrete uploaded file of an unsupported content type. -/
def plainTextUpload : UploadedFile :=
  ⟨"notes.txt", "text/markdown", []⟩

/-- A fresh session: no messages, no history, no retriever (`Empty`). -/
def emptySession : AppState := ⟨[], [], none⟩

/-! ## C1 -/

/-- C1: `aprocess_files` launches one parse task per uploaded file, and the
returned Document list is exactly the successfully parsed documents, with
`None` results removed, in the submission order: it equals the positional
`filterMap` of the per-file parses, and rewrapped in `some` it is a sublist
(order-preserving selection) of the per-task result list. -/
theorem aprocess_files_exactly_parsed_in_order (d : Decoders)
    (files : List UploadedFile) :
    (files.map (AsyncFileProcessor.aprocess_file d)).length = files.length ∧
    aprocess_files d files =
      files.filterMap (AsyncFileProcessor.aprocess_file d) ∧
    List.Sublist ((aprocess_files d files).map some)
      (files.map (AsyncFileProcessor.aprocess_file d)) := by
  refine ⟨List.length_map .., ?_, ?_⟩
  · simp [aprocess_files, gather, List.filterMap_map]
  · simpa [aprocess_files, gather] using
      filterMap_id_map_some_sublist
        (files.map (AsyncFileProcessor.aprocess_file d))

/-! ## C2 -/

/-- C2: ingesting a batch containing only unsupported content types surfaces
the "No valid documents were processed." condition and leaves the session
unchanged in `Empty`: no retriever is installed and zero embedding calls
are made. -/
theorem ingest_unsupported_batch_stays_empty (d : Decoders)
    (mkIndex : List Document → Chroma) (files : List UploadedFile)
    (st : AppState) (hempty : st.retriever = none)
    (huns : ∀ f ∈ files,
      f.type ≠ "application/pdf" ∧ f.type ≠ "text/csv" ∧
      f.type ≠ "application/vnd.openxmlformats-officedocument.spreadsheetml.sheet") :
    ingest_step d mkIndex files st =
      (st, some "No valid documents were processed.", 0) := by
  have hnone : ∀ f ∈ files, AsyncFileProcessor.aprocess_file d f = none := by
    intro f hf
    obtain ⟨h1, h2, h3⟩ := huns f hf
    exact aprocess_file_eq_none_of_unsupported d f h1 h2 h3
  have hdocs : aprocess_files d files = [] := by
    simp only [aprocess_files, gather, List.filterMap_map]
    simp only [List.filterMap_eq_nil_iff]
    intro f hf
    simpa using hnone f hf
  simp [ingest_step, hempty, hdocs]

/-- Witness for C2 at a concrete batch of one plain-text upload. -/
theorem ingest_unsupported_batch_stays_empty_witness :
    emptySession.retriever = none ∧
    (∀ f ∈ [plainTextUpload],
      f.type ≠ "application/pdf" ∧ f.type ≠ "text/csv" ∧
      f.type ≠ "application/vnd.openxmlformats-officedocument.spreadsheetml.sheet") ∧
    ingest_step sampleDecoders sampleIndex [plainTextUpload] emptySession =
      (emptySession, some "No valid documents were processed.", 0) :=
  ⟨rfl, by decide,
    ingest_unsupported_batch_stays_empty sampleDecoders sampleIndex
      [plainTextUpload] emptySession rfl (by decide)⟩

/-! ## C5 -/

/-- A concrete supported upload for evaluating the execution model. -/
def samplePdfUpload : UploadedFile :=
  ⟨"report.pdf", "application/pdf", ['h', 'i']⟩

/-- C5: temp-file lifecycle of `aprocess_file`, evaluated on the code's
control flow. Every exit from within the `try` block — successful parse,
unsupported content type's `return None`, decode failure, and cancellation
while suspended at the decode — deletes the temporary file; but a
cancellation while suspended at the initial save write exits before the
`try` is entered and leaves the temporary file on disk, contradicting the
claim's "every exit path". -/
theorem temp_file_cleanup_evaluation :
    (∀ (d : Decoders) (dec : DecodeOutcome) (f : UploadedFile),
        (aprocess_file_exec d AwaitOutcome.ok dec f).temp_file_exists
          = false) ∧
    (aprocess_file_exec sampleDecoders AwaitOutcome.cancelled
        DecodeOutcome.ok samplePdfUpload).temp_file_exists = true := by
  constructor
  · intro d dec f
    simp only [aprocess_file_exec]
    split
    · cases dec <;> rfl
    · rfl
  · rfl

/-! ## C6 -/

/-- A one-character document used to populate concrete indexes. -/
def tinyDoc : Document := ⟨['x'], []⟩

/-- A retriever whose index ranks four chunks for every query. -/
def fourChunkRetriever : AsyncDocumentRetriever :=
  ⟨fun _ => [tinyDoc, tinyDoc, tinyDoc, tinyDoc]⟩

/-- C6 counterexample: it is not true that a retrieve call omitting `top_k`
returns at most 3 results — on an index holding four chunks it returns all
four, because retriever.py declares the default as `top_k: int = 5`. -/
theorem aretrieve_default_returns_more_than_three :
    ¬ (∀ (r : AsyncDocumentRetriever) (q : String),
        (aretrieve_omitting_top_k r q).length ≤ 3) := by
  intro hall
  exact absurd (hall fourChunkRetriever "") (by decide)

/-- C6 amended: the default `top_k` of `aretrieve` is 5, so a retrieve call
that does not specify `top_k` returns at most 5 results; the generation
path (`agenerate_response`) passes `top_k=3` explicitly, so generation uses
at most 3 retrieved chunks. -/
theorem aretrieve_default_top_k_five (r : AsyncDocumentRetriever)
    (q : String) :
    (aretrieve_omitting_top_k r q).length ≤ 5 ∧
    (agenerate_docs r q).length ≤ 3 := by
  constructor <;>
    · simp only [aretrieve_omitting_top_k, agenerate_docs,
        AsyncDocumentRetriever.aretrieve, Chroma.similarity_search,
        run_in_executor]
      exact List.length_take_le ..

/-! ## C7 -/

/-- C7: when `agenerate_response` raises (retrieval or language-model
failure), the chat handler leaves the conversation state unchanged — no
(question, answer) pair is appended, the retriever (hence the `Ready`
state) is untouched — and the surfaced error names the generation stage:
`"Error generating response: ..."`. -/
theorem ask_failure_leaves_session_unchanged (st : AppState)
    (prompt e : String) :
    ((chat_step (Except.error e) prompt st).1).chat_history
        = st.chat_history ∧
    ((chat_step (Except.error e) prompt st).1).retriever = st.retriever ∧
    (chat_step (Except.error e) prompt st).2
        = some ("Error generating response: " ++ e) :=
  ⟨rfl, rfl, rfl⟩

/-! ## C9 -/

/-- C9: the chat-history portion of the assembled prompt is built from
exactly the suffix of the most recent `min 3 len` (question, answer) pairs
of the history, each rendered by the Q:/A: formatter and joined with
newlines; the prompt assembly uses exactly that string; and a successful
chat turn appends to the full history without truncation, so earlier pairs
are retained outside the prompt. -/
theorem prompt_history_exactly_last_three :
    (∀ h : List (String × String), ∃ tail,
        tail.length = min 3 h.length ∧ List.IsSuffix tail h ∧
        history_str h = String.intercalate "\n" (tail.map formatQA)) ∧
    (∀ (r : AsyncDocumentRetriever) (q : String)
        (h : List (String × String)),
        (agenerate_prompt r q h).chat_history = history_str h) ∧
    (∀ (st : AppState) (prompt resp : String),
        ((chat_step (Except.ok resp) prompt st).1).chat_history
          = st.chat_history ++ [(prompt, resp)]) := by
  refine ⟨?_, fun r q h => rfl, fun st prompt resp => rfl⟩
  intro h
  refine ⟨h.drop (h.length - 3), ?_,
    ⟨h.take (h.length - 3), List.take_append_drop ..⟩, rfl⟩
  rw [List.length_drop]
  omega

/-! ## C10 -/

/-- Every size in the configured `MAX_FILE_SIZES` table is positive, so the
Python truthiness guard `if max_size and ...` never masks a configured
entry. -/
theorem max_file_sizes_pos (t : String) (m : Nat)
    (h : MAX_FILE_SIZES.lookup t = some m) : 0 < m := by
  simp only [MAX_FILE_SIZES, List.lookup] at h
  split at h <;> try split at h
  all_goals first
    | (injection h with h; omega)
    | (try split at h
       all_goals first
         | (injection h with h; omega)
         | exact absurd h (by simp))

/-- C10: `validate_file_size` rejects exactly when the file type has a
configured maximum size and the given size strictly exceeds it; a file type
absent from `MAX_FILE_SIZES` is accepted at every size. -/
theorem validate_file_size_iff_configured_max_exceeded (file_size : Nat)
    (file_type : String) :
    (validate_file_size file_size file_type ≠ Except.ok () ↔
      ∃ m, MAX_FILE_SIZES.lookup file_type = some m ∧ m < file_size) ∧
    (MAX_FILE_SIZES.lookup file_type = none →
      validate_file_size file_size file_type = Except.ok ()) := by
  constructor
  · cases hl : MAX_FILE_SIZES.lookup file_type with
    | none => simp [validate_file_size, hl]
    | some m =>
      have hm : m ≠ 0 := Nat.pos_iff_ne_zero.mp (max_file_sizes_pos file_type m hl)
      by_cases hgt : file_size > m
      · simp [validate_file_size, hl, hm, hgt]
      · simp only [validate_file_size, hl]
        rw [if_neg (by intro hc; exact hgt hc.2)]
        simp
        omega
  · intro hnone
    simp [validate_file_size, hnone]

/-- Witness for C10 at a file type absent from the table. -/
theorem validate_file_size_witness :
    MAX_FILE_SIZES.lookup "txt" = none ∧
    validate_file_size 999999999 "txt" = Except.ok () :=
  ⟨by decide,
    (validate_file_size_iff_configured_max_exceeded 999999999 "txt").2
      (by decide)⟩

/-! ## C3 and C4: splitter lemmas -/

/-- `splitTextAux` returns the whole text as a single chunk whenever it
fits in one chunk, for any fuel. -/
theorem splitTextAux_single (cs ov fuel : Nat) (s : List Char)
    (h : s.length ≤ cs) : splitTextAux cs ov fuel s = [s] := by
  cases fuel with
  | zero => rfl
  | succ n => simp [splitTextAux, h]

/-- The chunk list `splitTextAux` produces is nonempty and its first chunk
begins with the same `ov` leading units as the text it splits. -/
theorem splitTextAux_head (cs ov fuel : Nat) (s : List Char)
    (hov : ov ≤ cs) :
    ∃ h t, splitTextAux cs ov fuel s = h :: t ∧ h.take ov = s.take ov := by
  cases fuel with
  | zero => exact ⟨s, [], rfl, rfl⟩
  | succ n =>
    by_cases hle : s.length ≤ cs
    · exact ⟨s, [], by simp [splitTextAux, hle], rfl⟩
    · exact ⟨s.take cs, splitTextAux cs ov n (s.drop (cs - ov)),
        by simp [splitTextAux, hle],
        by rw [List.take_take, min_eq_left hov]⟩

/-- Adjacent chunks share a suffix/prefix of exactly `ov` units: the last
`ov` units of each chunk equal the first `ov` units of its successor, and
the shared segment has length exactly `ov`. -/
def adjacentOverlap (ov : Nat) : List (List Char) → Prop
  | a :: b :: rest =>
    a.drop (a.length - ov) = b.take ov ∧ (b.take ov).length = ov ∧
      adjacentOverlap ov (b :: rest)
  | _ => True

/-- Every chunk list produced by `splitTextAux` satisfies the exact-overlap
invariant, provided the overlap is smaller than the chunk size. -/
theorem adjacentOverlap_splitTextAux (cs ov : Nat) (hov : ov < cs) :
    ∀ (fuel : Nat) (s : List Char),
      adjacentOverlap ov (splitTextAux cs ov fuel s) := by
  intro fuel
  induction fuel with
  | zero => intro s; exact trivial
  | succ n ih =>
    intro s
    by_cases hle : s.length ≤ cs
    · rw [splitTextAux_single cs ov (n + 1) s hle]
      exact trivial
    · obtain ⟨h, t, heq, htake⟩ :=
        splitTextAux_head cs ov n (s.drop (cs - ov)) (Nat.le_of_lt hov)
      have hres : splitTextAux cs ov (n + 1) s = s.take cs :: h :: t := by
        simp [splitTextAux, hle, heq]
      rw [hres]
      push_neg at hle
      have hdlen : (s.drop (cs - ov)).length = s.length - (cs - ov) :=
        List.length_drop ..
      refine ⟨?_, ?_, ?_⟩
      · have h1 : (s.take cs).length = cs := by
          rw [List.length_take]; omega
        rw [h1, htake, List.drop_take]
        have h2 : cs - (cs - ov) = ov := by omega
        rw [h2]
      · rw [htake, List.length_take]
        omega
      · rw [← heq]
        exact ih _

/-- C4: a Document whose text is at most the configured maximum chunk size
splits into exactly one Chunk whose text (and metadata) equal the
Document's. -/
theorem split_short_document_single_chunk (doc : Document)
    (h : doc.page_content.length ≤ Config.CHUNK_SIZE) :
    AsyncVectorStore.aprocess_documents [doc] = [doc] := by
  simp [AsyncVectorStore.aprocess_documents, run_in_executor,
    split_documents, splitText, splitTextAux_single _ _ _ _ h]

/-- A concrete two-character document. -/
def shortDoc : Document := ⟨['h', 'i'], [("file_name", "a.pdf")]⟩

/-- Witness for C4 at a two-character document. -/
theorem split_short_document_single_chunk_witness :
    shortDoc.page_content.length ≤ Config.CHUNK_SIZE ∧
    AsyncVectorStore.aprocess_documents [shortDoc] = [shortDoc] :=
  ⟨by norm_num [shortDoc, Config.CHUNK_SIZE],
    split_short_document_single_chunk shortDoc
      (by norm_num [shortDoc, Config.CHUNK_SIZE])⟩

/-- C3: splitting a Document longer than twice the configured maximum chunk
size yields chunks in which every pair of adjacent chunks shares a
suffix/prefix of exactly the configured overlap length
(`Config.CHUNK_OVERLAP = 200`). -/
theorem split_long_document_exact_overlap (doc : Document)
    (_h : 2 * Config.CHUNK_SIZE < doc.page_content.length) :
    adjacentOverlap Config.CHUNK_OVERLAP
      ((AsyncVectorStore.aprocess_documents [doc]).map
        Document.page_content) := by
  have hmap : (AsyncVectorStore.aprocess_documents [doc]).map
      Document.page_content
      = splitText Config.CHUNK_SIZE Config.CHUNK_OVERLAP doc.page_content := by
    simp [AsyncVectorStore.aprocess_documents, run_in_executor,
      split_documents, List.map_map, Function.comp_def]
  rw [hmap]
  exact adjacentOverlap_splitTextAux Config.CHUNK_SIZE Config.CHUNK_OVERLAP
    (by norm_num [Config.CHUNK_SIZE, Config.CHUNK_OVERLAP]) _ _

/-- A concrete document of 3001 units, longer than twice the chunk size. -/
def longDoc : Document :=
  ⟨List.replicate 3001 'a', [("file_name", "big.pdf")]⟩

attribute [irreducible] adjacentOverlap

/-- Witness for C3 at the 3001-unit document. -/
theorem split_long_document_exact_overlap_witness :
    2 * Config.CHUNK_SIZE < longDoc.page_content.length ∧
    adjacentOverlap Config.CHUNK_OVERLAP
      ((AsyncVectorStore.aprocess_documents [longDoc]).map
        Document.page_content) :=
  ⟨by norm_num [longDoc, Config.CHUNK_SIZE],
    split_long_document_exact_overlap longDoc
      (by norm_num [longDoc, Config.CHUNK_SIZE])⟩

/-! ## C8 -/

/-- C8: a successfully parsed Document carries the originating file's name
under the `file_name` metadata key, and so does every Chunk split from it,
since chunks inherit their parent Document's metadata. -/
theorem parsed_metadata_carries_file_name (d : Decoders) (f : UploadedFile)
    (doc : Document)
    (h : AsyncFileProcessor.aprocess_file d f = some doc) :
    doc.metadata.lookup "file_name" = some f.name ∧
    ∀ chunk ∈ AsyncVectorStore.aprocess_documents [doc],
      chunk.metadata.lookup "file_name" = some f.name := by
  have hmeta : doc.metadata = [("file_name", f.name)] := by
    simp only [AsyncFileProcessor.aprocess_file] at h
    split at h
    · cases h; rfl
    · split at h
      · cases h; rfl
      · split at h
        · cases h; rfl
        · cases h
  constructor
  · rw [hmeta]; rfl
  · intro chunk hc
    have hcm : chunk.metadata = doc.metadata := by
      simp [AsyncVectorStore.aprocess_documents, run_in_executor,
        split_documents] at hc
      obtain ⟨t, ht, hchunk⟩ := hc
      rw [← hchunk]
    rw [hcm, hmeta]
    rfl

/-- The Document the sample PDF upload parses to. -/
def parsedPdfDoc : Document := ⟨['h', 'i'], [("file_name", "report.pdf")]⟩

/-- Witness for C8 at the sample PDF upload. -/
theorem parsed_metadata_carries_file_name_witness :
    AsyncFileProcessor.aprocess_file sampleDecoders samplePdfUpload
      = some parsedPdfDoc ∧
    (parsedPdfDoc.metadata.lookup "file_name"
        = some samplePdfUpload.name ∧
      ∀ chunk ∈ AsyncVectorStore.aprocess_documents [parsedPdfDoc],
        chunk.metadata.lookup "file_name" = some samplePdfUpload.name) :=
  ⟨rfl,
    parsed_metadata_carries_file_name sampleDecoders samplePdfUpload
      parsedPdfDoc rfl⟩
